import Mathlib

/-!
Verification of the jpeg transform pipeline (`jpeg_codec.h`:
`encodeJpegIntoOutputStream`, `transformJpeg`) against its design
specification.  The repository ships only the public header; the bodies of
the geometry resolver and the orchestrator are modelled from the spec, as
marked on each definition.
-/

set_option linter.unusedVariables false

namespace ImagePipeline

/-- Modelled from the spec: error taxonomy of §7 (the header's functions
signal failure; `transformations.h` with the error channel is not in the
sources). -/
inductive PipelineError where
  | InvalidGeometry
  | DecodeError
  | EncodeError
  | IOError
deriving DecidableEq, Repr

/-- Modelled from the spec: `RotationType` of §3, one of
\x7bnone, 90°, 180°, 270°\x7d clockwise (`transformations.h` is not in the
sources). -/
inductive RotationType where
  | none
  | deg90
  | deg180
  | deg270
deriving DecidableEq, Repr

/-- Whether the rotation swaps width and height (90° or 270°, §3). -/
def RotationType.swapsDimensions : RotationType → Bool
  | .deg90 => true
  | .deg270 => true
  | _ => false

/-- Number of clockwise quarter turns the rotation stands for. -/
def RotationType.steps : RotationType → Nat
  | .none => 0
  | .deg90 => 1
  | .deg180 => 2
  | .deg270 => 3

/-- Modelled from the spec: `ScaleFactor` of §3, a rational downscale ratio
numerator/denominator (`transformations.h` is not in the sources). -/
structure ScaleFactor where
  num : Nat
  den : Nat
deriving DecidableEq, Repr

/-- The §3 invariant on a scale factor: numerator ≤ denominator, both
positive. -/
def ScaleFactor.valid (sf : ScaleFactor) : Prop :=
  0 < sf.num ∧ 0 < sf.den ∧ sf.num ≤ sf.den

instance (sf : ScaleFactor) : Decidable sf.valid := by
  unfold ScaleFactor.valid; infer_instance

/-- Modelled from the spec: `CropInfo` of §3, a rectangle (x, y, width,
height) in the coordinate space of the already scaled and rotated image
(`transformations.h` is not in the sources).  Fields are integers so that
the non-positive width/height rejection of §4.1 step 4 is expressible. -/
structure CropInfo where
  x : Int
  y : Int
  width : Int
  height : Int
deriving DecidableEq, Repr

/-- The full-frame identity crop rectangle for a W×H image (§4.1 edge
cases: absence of crop_info is the identity rectangle). -/
def fullRect (w h : Nat) : CropInfo :=
  { x := 0, y := 0, width := (w : Int), height := (h : Int) }

/-- Modelled from the spec: `DecodedImage` of §3 (`decoded_image.h` is not
in the sources): width, height, row-major pixel buffer, bytes-per-pixel of
the fixed pixel format. -/
structure DecodedImage where
  width : Nat
  height : Nat
  bytesPerPixel : Nat
  buffer : List UInt8
deriving DecidableEq, Repr

/-- The §3 buffer-length invariant of a decoded image. -/
def DecodedImage.bufferInvariant (img : DecodedImage) : Prop :=
  img.buffer.length = img.width * img.height * img.bytesPerPixel

instance (img : DecodedImage) : Decidable img.bufferInvariant := by
  unfold DecodedImage.bufferInvariant; infer_instance

/-- Rounding-up division, as libjpeg computes scaled output dimensions. -/
def ceilDiv (a b : Nat) : Nat := (a + b - 1) / b

/-- Target dimension on one axis: natural dimension × scale factor, rounded
down, clamped to minimum 1 (§4.1 step 1). -/
def targetDim (d : Nat) (sf : ScaleFactor) : Nat :=
  max 1 ((d * sf.num) / sf.den)

/-- The decode-time scale numerators the codec primitive supports: libjpeg
DCT-scaled decode offers n/8 for n in 1..8 (§4.1 step 2: power-of-two or
small rational scale steps). -/
def supportedScaleNums : List Nat := [1, 2, 3, 4, 5, 6, 7, 8]

/-- Modelled from the spec: §4.1 step 2 selection of the decode-time scale:
the strongest supported downscale n/8 that is still ≥ the requested scale,
i.e. the least n in 1..8 with n/8 ≥ num/den. -/
def chooseDecodeScaleNum (sf : ScaleFactor) : Nat :=
  min 8 (max 1 (ceilDiv (8 * sf.num) sf.den))

/-- Dimension of a DCT-scaled decode at scale n/8 of a natural dimension d
(libjpeg rounds scaled dimensions up). -/
def dctScaledDim (d n : Nat) : Nat := ceilDiv (d * n) 8

/-- The resolved transform plan returned by the Geometry Resolver
(§4.1 contract). -/
structure TransformPlan where
  decodeScaleNum : Nat
  scaledWidth : Nat
  scaledHeight : Nat
  outWidth : Nat
  outHeight : Nat
  rotateSteps : Nat
  cropRect : CropInfo
deriving DecidableEq, Repr

/-- Containment test of §4.1 step 4: the rectangle has positive width and
height and lies fully inside a w×h image. -/
def cropFits (rect : CropInfo) (w h : Nat) : Prop :=
  0 ≤ rect.x ∧ 0 ≤ rect.y ∧ 0 < rect.width ∧ 0 < rect.height ∧
    rect.x + rect.width ≤ (w : Int) ∧ rect.y + rect.height ≤ (h : Int)

instance (rect : CropInfo) (w h : Nat) : Decidable (cropFits rect w h) := by
  unfold cropFits; infer_instance

/-- Modelled from the spec: the Geometry Resolver of §4.1 (its
implementation file is not in the sources).  Computes clamped rounded-down
target dimensions, selects the decode-time scale, swaps width/height for
90°/270° before validating the crop, and validates the crop rectangle
(defaulting to the full-frame identity rectangle) against the
post-rotation dimensions, failing with `InvalidGeometry` otherwise. -/
def resolve (naturalWidth naturalHeight : Nat) (rotation : RotationType)
    (sf : ScaleFactor) (cropInfo : Option CropInfo) :
    Except PipelineError TransformPlan :=
  let scaledW := targetDim naturalWidth sf
  let scaledH := targetDim naturalHeight sf
  let outW := if rotation.swapsDimensions then scaledH else scaledW
  let outH := if rotation.swapsDimensions then scaledW else scaledH
  let rect := cropInfo.getD (fullRect outW outH)
  if cropFits rect outW outH then
    .ok { decodeScaleNum := chooseDecodeScaleNum sf
          scaledWidth := scaledW
          scaledHeight := scaledH
          outWidth := outW
          outHeight := outH
          rotateSteps := rotation.steps
          cropRect := rect }
  else
    .error .InvalidGeometry

/-- Bytes of the pixel at column px, row py of a row-major image. -/
def pixelBytes (img : DecodedImage) (px py : Nat) : List UInt8 :=
  ((img.buffer.drop ((py * img.width + px) * img.bytesPerPixel)).take
    img.bytesPerPixel)

/-- Modelled from the spec: one clockwise quarter-turn buffer permutation
(§4.2 step 4; the in-memory rotation implementation is not in the
sources). -/
def rotate90 (img : DecodedImage) : DecodedImage :=
  { width := img.height
    height := img.width
    bytesPerPixel := img.bytesPerPixel
    buffer :=
      (List.range (img.height * img.width)).flatMap fun i =>
        pixelBytes img (i / img.height) (img.height - 1 - i % img.height) }

/-- Rotation by a number of clockwise quarter turns. -/
def rotateApply (steps : Nat) (img : DecodedImage) : DecodedImage :=
  rotate90^[steps] img

/-- Modelled from the spec: the residual in-memory resize of §4.2 step 4
(nearest-neighbour resample to the target dimensions; the implementation is
not in the sources). -/
def resizeApply (tw th : Nat) (img : DecodedImage) : DecodedImage :=
  { width := tw
    height := th
    bytesPerPixel := img.bytesPerPixel
    buffer :=
      (List.range (th * tw)).flatMap fun i =>
        pixelBytes img (i % tw * img.width / tw) (i / tw * img.height / th) }

/-- Modelled from the spec: the in-memory crop of §4.2 step 4 (the
implementation is not in the sources). -/
def cropApply (rect : CropInfo) (img : DecodedImage) : DecodedImage :=
  { width := rect.width.toNat
    height := rect.height.toNat
    bytesPerPixel := img.bytesPerPixel
    buffer :=
      (List.range (rect.height.toNat * rect.width.toNat)).flatMap fun i =>
        pixelBytes img (rect.x.toNat + i % rect.width.toNat)
          (rect.y.toNat + i / rect.width.toNat) }

/-- Modelled from the spec: the codec collaborator interface of §2/§6,
received by explicit dependency injection (§9).  `readHeader` is the cheap
header read giving natural dimensions; `decode` takes the decode-time scale
numerator n (of n/8); `encode` serializes an image at a quality into output
bytes.  `none` is the primitive's failure. -/
structure Codec where
  readHeader : List UInt8 → Option (Nat × Nat)
  decode : List UInt8 → Nat → Option DecodedImage
  encode : DecodedImage → Int → Option (List UInt8)

/-- A recorded invocation of a codec primitive, in order. -/
inductive PrimCall where
  | readHeaderCall
  | decodeCall (scaleNum : Nat)
  | encodeCall (image : DecodedImage) (quality : Int)
deriving DecidableEq, Repr

/-- Whether a recorded call is an invocation of the encode primitive. -/
def PrimCall.isEncodeCall : PrimCall → Bool
  | .encodeCall _ _ => true
  | _ => false

instance {ε α : Type} [DecidableEq ε] [DecidableEq α] :
    DecidableEq (Except ε α) := fun a b =>
  match a, b with
  | .error e, .error f =>
      if h : e = f then .isTrue (by rw [h]) else .isFalse (by simp [h])
  | .error _, .ok _ => .isFalse (by simp)
  | .ok _, .error _ => .isFalse (by simp)
  | .ok u, .ok v =>
      if h : u = v then .isTrue (by rw [h]) else .isFalse (by simp [h])

/-- Outcome of a pipeline operation: its result, the bytes written to the
output stream, and the codec primitive invocations it performed. -/
structure OpOutcome where
  result : Except PipelineError Unit
  output : List UInt8
  calls : List PrimCall
deriving DecidableEq, Repr

/-- Modelled from the spec: the crop-capable general pipeline of §4.2 (the
body of `jpeg_codec.cpp` is not in the sources).  Validates quality as
caller-error input validation before any decode/encode work (§7, §8), reads
the header, resolves geometry, decodes at the resolved scale, applies the
residual resize and the rotation, applies the crop when one beyond the
full-frame identity was resolved, checks the buffer invariant, and encodes
into the output stream.  No bytes are written on any failure before the
encode step. -/
def transformJpegWithCrop (c : Codec) (input : List UInt8)
    (rotation : RotationType) (sf : ScaleFactor) (cropInfo : Option CropInfo)
    (quality : Int) : OpOutcome :=
  if quality < 1 ∨ 100 < quality then
    { result := .error .InvalidGeometry, output := [], calls := [] }
  else
    match c.readHeader input with
    | Option.none =>
        { result := .error .DecodeError, output := [],
          calls := [.readHeaderCall] }
    | some (w, h) =>
        match resolve w h rotation sf cropInfo with
        | .error e =>
            { result := .error e, output := [], calls := [.readHeaderCall] }
        | .ok plan =>
            match c.decode input plan.decodeScaleNum with
            | Option.none =>
                { result := .error .DecodeError, output := [],
                  calls := [.readHeaderCall, .decodeCall plan.decodeScaleNum] }
            | some img =>
                let img1 :=
                  if img.width = plan.scaledWidth ∧
                      img.height = plan.scaledHeight then img
                  else resizeApply plan.scaledWidth plan.scaledHeight img
                let img2 := rotateApply plan.rotateSteps img1
                let img3 :=
                  if plan.cropRect = fullRect plan.outWidth plan.outHeight
                  then img2
                  else cropApply plan.cropRect img2
                if img3.bufferInvariant then
                  match c.encode img3 quality with
                  | Option.none =>
                      { result := .error .EncodeError, output := [],
                        calls := [.readHeaderCall,
                          .decodeCall plan.decodeScaleNum,
                          .encodeCall img3 quality] }
                  | some bytes =>
                      { result := .ok (), output := bytes,
                        calls := [.readHeaderCall,
                          .decodeCall plan.decodeScaleNum,
                          .encodeCall img3 quality] }
                else
                  { result := .error .EncodeError, output := [],
                    calls := [.readHeaderCall,
                      .decodeCall plan.decodeScaleNum] }

/-- The public `transformJpeg` entry point of `jpeg_codec.h`: input stream,
output stream, rotation_type, scale_factor, quality — no crop parameter, so
the general pipeline runs with no explicit crop (§4.2 step 2). -/
def transformJpeg (c : Codec) (input : List UInt8) (rotation : RotationType)
    (sf : ScaleFactor) (quality : Int) : OpOutcome :=
  transformJpegWithCrop c input rotation sf Option.none quality

/-- Modelled from the spec: the encode-only path
`encodeJpegIntoOutputStream` of §4.3 (the body of `jpeg_codec.cpp` is not
in the sources).  Validates the decoded image's buffer-length invariant and
the quality before delegating to the encode primitive, failing with
`EncodeError`; no geometry resolution. -/
def encodeJpegIntoOutputStream (c : Codec) (img : DecodedImage)
    (quality : Int) : OpOutcome :=
  if ¬ img.bufferInvariant then
    { result := .error .EncodeError, output := [], calls := [] }
  else if quality < 1 ∨ 100 < quality then
    { result := .error .EncodeError, output := [], calls := [] }
  else
    match c.encode img quality with
    | Option.none =>
        { result := .error .EncodeError, output := [],
          calls := [.encodeCall img quality] }
    | some bytes =>
        { result := .ok (), output := bytes,
          calls := [.encodeCall img quality] }

/-! ### Helper lemmas -/

lemma targetDim_pos (d : Nat) (sf : ScaleFactor) : 0 < targetDim d sf :=
  lt_of_lt_of_le one_pos (le_max_left _ _)

lemma cropFits_fullRect (w h : Nat) (hw : 0 < w) (hh : 0 < h) :
    cropFits (fullRect w h) w h := by
  simp [cropFits, fullRect]
  omega

/-- The Geometry Resolver always succeeds when no crop is supplied: the
full-frame identity rectangle trivially fits. -/
lemma resolve_none_eq (w h : Nat) (rot : RotationType) (sf : ScaleFactor) :
    resolve w h rot sf Option.none =
      .ok { decodeScaleNum := chooseDecodeScaleNum sf
            scaledWidth := targetDim w sf
            scaledHeight := targetDim h sf
            outWidth :=
              if rot.swapsDimensions then targetDim h sf else targetDim w sf
            outHeight :=
              if rot.swapsDimensions then targetDim w sf else targetDim h sf
            rotateSteps := rot.steps
            cropRect :=
              fullRect
                (if rot.swapsDimensions then targetDim h sf else targetDim w sf)
                (if rot.swapsDimensions then targetDim w sf
                 else targetDim h sf) } := by
  simp only [resolve, Option.getD_none]
  rw [if_pos (cropFits_fullRect _ _ ?_ ?_)]
  · split <;> exact targetDim_pos _ _
  · split <;> exact targetDim_pos _ _

/-- Inversion on a successful geometry resolution: every field of the plan,
and the fact that the crop rectangle was validated against the
post-rotation dimensions. -/
lemma resolve_ok_inv {w h : Nat} {rot : RotationType} {sf : ScaleFactor}
    {crop : Option CropInfo} {plan : TransformPlan}
    (hres : resolve w h rot sf crop = .ok plan) :
    plan.decodeScaleNum = chooseDecodeScaleNum sf ∧
      plan.scaledWidth = targetDim w sf ∧
      plan.scaledHeight = targetDim h sf ∧
      plan.outWidth =
        (if rot.swapsDimensions then targetDim h sf else targetDim w sf) ∧
      plan.outHeight =
        (if rot.swapsDimensions then targetDim w sf else targetDim h sf) ∧
      plan.rotateSteps = rot.steps ∧
      plan.cropRect = crop.getD (fullRect plan.outWidth plan.outHeight) ∧
      cropFits plan.cropRect plan.outWidth plan.outHeight := by
  simp only [resolve] at hres
  by_cases hb : rot.swapsDimensions = true
  · simp only [if_pos hb] at hres ⊢
    split at hres
    · injection hres with hres; subst hres; simp_all
    · exact absurd hres (by simp)
  · simp only [if_neg hb] at hres ⊢
    split at hres
    · injection hres with hres; subst hres; simp_all
    · exact absurd hres (by simp)

/-! ### C1: resolved output dimensions -/

/-- C1 (counterexample): the claim's formula `floor(natural × scale)` fails
at a 1×1 image with scale 1/2: the floor is 0 on both axes, while the
Geometry Resolver, which clamps each axis to a minimum of 1, resolves
1×1. -/
theorem C1_counterexample :
    (resolve 1 1 RotationType.none ⟨1, 2⟩ Option.none).map
        (fun p => (p.outWidth, p.outHeight)) = .ok (1, 1) ∧
      (1 * 1) / 2 = 0 := by decide

/-- C1 (amended: the scaled dimensions are `floor(natural × scale)` clamped
below by 1, per the resolver's ≥ 1×1 invariant): for every valid input the
Geometry Resolver succeeds and its output dimensions are the clamped
rounded-down scaled dimensions, swapped exactly when the rotation is 90° or
270°. -/
theorem C1_resolved_dimensions (w h : Nat) (rot : RotationType)
    (sf : ScaleFactor) (hw : 0 < w) (hh : 0 < h) (hsf : sf.valid) :
    ∃ plan, resolve w h rot sf Option.none = .ok plan ∧
      plan.scaledWidth = max 1 (w * sf.num / sf.den) ∧
      plan.scaledHeight = max 1 (h * sf.num / sf.den) ∧
      ((rot = .deg90 ∨ rot = .deg270) →
        plan.outWidth = max 1 (h * sf.num / sf.den) ∧
          plan.outHeight = max 1 (w * sf.num / sf.den)) ∧
      ((rot = .none ∨ rot = .deg180) →
        plan.outWidth = max 1 (w * sf.num / sf.den) ∧
          plan.outHeight = max 1 (h * sf.num / sf.den)) := by
  refine ⟨_, resolve_none_eq w h rot sf, rfl, rfl, ?_, ?_⟩ <;>
    rintro (rfl | rfl) <;> simp [RotationType.swapsDimensions, targetDim]

/-- C1 (witness): the spec's scenario — a 1000×600 natural image with scale
factor 1/2 and rotation 90° resolves to post-transform dimensions
300×500. -/
theorem C1_witness :
    (resolve 1000 600 RotationType.deg90 ⟨1, 2⟩ Option.none).map
        (fun p => (p.outWidth, p.outHeight)) = .ok (300, 500) := by
  obtain ⟨plan, hres, -, -, hswap, -⟩ :=
    C1_resolved_dimensions 1000 600 RotationType.deg90 ⟨1, 2⟩
      (by decide) (by decide) (by decide)
  rw [hres]
  simp only [Except.map]
  rw [(hswap (Or.inl rfl)).1, (hswap (Or.inl rfl)).2]
  decide

/-! ### C2: crop validation -/

/-- C2: the Geometry Resolver succeeds on a crop rectangle exactly when the
rectangle has positive width and height and lies fully inside the
post-rotation/post-scale bounds; on any other rectangle it fails with
`InvalidGeometry`. -/
theorem C2_crop_validation (w h : Nat) (rot : RotationType) (sf : ScaleFactor)
    (rect : CropInfo) (hw : 0 < w) (hh : 0 < h) (hsf : sf.valid) :
    ((∃ plan, resolve w h rot sf (some rect) = .ok plan) ↔
        cropFits rect
          (if rot.swapsDimensions then targetDim h sf else targetDim w sf)
          (if rot.swapsDimensions then targetDim w sf else targetDim h sf)) ∧
      (¬ cropFits rect
          (if rot.swapsDimensions then targetDim h sf else targetDim w sf)
          (if rot.swapsDimensions then targetDim w sf else targetDim h sf) →
        resolve w h rot sf (some rect) = .error .InvalidGeometry) := by
  by_cases hc : cropFits rect
      (if rot.swapsDimensions then targetDim h sf else targetDim w sf)
      (if rot.swapsDimensions then targetDim w sf else targetDim h sf) <;>
    simp only [resolve, Option.getD_some] <;>
    simp [hc]

/-- C2 (witness): the spec's scenario — the degenerate crop rectangle
(x=0, y=0, w=0, h=10) is rejected with `InvalidGeometry` (here on an 8×8
image at identity scale and no rotation). -/
theorem C2_witness :
    resolve 8 8 RotationType.none ⟨1, 1⟩ (some ⟨0, 0, 0, 10⟩) =
      .error .InvalidGeometry :=
  (C2_crop_validation 8 8 RotationType.none ⟨1, 1⟩ ⟨0, 0, 0, 10⟩
    (by decide) (by decide) (by decide)).2 (by decide)

/-! ### C8: clamping to a minimum of 1×1 -/

/-- C8: whenever the Geometry Resolver succeeds, the resolved dimensions
are at least 1×1, and on any axis where the rounded-down scaled dimension
would be 0 the scaled dimension is clamped to exactly 1. -/
theorem C8_minimum_dimensions (w h : Nat) (rot : RotationType)
    (sf : ScaleFactor) (crop : Option CropInfo) (plan : TransformPlan)
    (hres : resolve w h rot sf crop = .ok plan) :
    (1 ≤ plan.outWidth ∧ 1 ≤ plan.outHeight) ∧
      (1 ≤ plan.scaledWidth ∧ 1 ≤ plan.scaledHeight) ∧
      (w * sf.num / sf.den = 0 → plan.scaledWidth = 1) ∧
      (h * sf.num / sf.den = 0 → plan.scaledHeight = 1) := by
  obtain ⟨-, hsw, hsh, how, hoh, -, -, -⟩ := resolve_ok_inv hres
  rw [hsw, hsh, how, hoh]
  refine ⟨⟨?_, ?_⟩, ⟨targetDim_pos _ _, targetDim_pos _ _⟩, ?_, ?_⟩
  · split <;> exact targetDim_pos _ _
  · split <;> exact targetDim_pos _ _
  · intro h0; simp [targetDim, h0]
  · intro h0; simp [targetDim, h0]

/-- C8 (witness): a 1×1 image at scale 1/2 — the floor is 0 on both axes,
and the resolver clamps both to 1. -/
theorem C8_witness :
    (1 ≤ (TransformPlan.mk 4 1 1 1 1 0 ⟨0, 0, 1, 1⟩).outWidth ∧
        1 ≤ (TransformPlan.mk 4 1 1 1 1 0 ⟨0, 0, 1, 1⟩).outHeight) ∧
      (1 ≤ (TransformPlan.mk 4 1 1 1 1 0 ⟨0, 0, 1, 1⟩).scaledWidth ∧
        1 ≤ (TransformPlan.mk 4 1 1 1 1 0 ⟨0, 0, 1, 1⟩).scaledHeight) ∧
      (1 * (1 : Nat) / 2 = 0 →
        (TransformPlan.mk 4 1 1 1 1 0 ⟨0, 0, 1, 1⟩).scaledWidth = 1) ∧
      (1 * (1 : Nat) / 2 = 0 →
        (TransformPlan.mk 4 1 1 1 1 0 ⟨0, 0, 1, 1⟩).scaledHeight = 1) :=
  C8_minimum_dimensions 1 1 RotationType.none ⟨1, 2⟩ Option.none
    (TransformPlan.mk 4 1 1 1 1 0 ⟨0, 0, 1, 1⟩) (by decide)

/-! ### C7: decode-time scale selection -/

lemma chooseDecodeScaleNum_spec (sf : ScaleFactor) (hsf : sf.valid) :
    1 ≤ chooseDecodeScaleNum sf ∧ chooseDecodeScaleNum sf ≤ 8 ∧
      8 * sf.num ≤ chooseDecodeScaleNum sf * sf.den ∧
      ∀ m, 8 * sf.num ≤ m * sf.den → chooseDecodeScaleNum sf ≤ m := by
  obtain ⟨h1, h2, h3⟩ := hsf
  have hcd : ceilDiv (8 * sf.num) sf.den = (8 * sf.num) ⌈/⌉ sf.den := by
    rw [Nat.ceilDiv_eq_add_pred_div, ceilDiv]
  have hge : 8 * sf.num ≤ sf.den * ((8 * sf.num) ⌈/⌉ sf.den) := by
    have := le_smul_ceilDiv (a := sf.den) (b := 8 * sf.num) h2
    simpa [smul_eq_mul] using this
  have hle8 : (8 * sf.num) ⌈/⌉ sf.den ≤ 8 :=
    (ceilDiv_le_iff_le_mul h2).2 (by omega)
  have hpos : 1 ≤ (8 * sf.num) ⌈/⌉ sf.den := by
    rcases Nat.eq_zero_or_pos ((8 * sf.num) ⌈/⌉ sf.den) with h0 | h0
    · rw [h0, Nat.mul_zero] at hge; omega
    · exact h0
  have hX : chooseDecodeScaleNum sf = (8 * sf.num) ⌈/⌉ sf.den := by
    unfold chooseDecodeScaleNum
    rw [hcd]
    omega
  rw [hX]
  refine ⟨hpos, hle8, hge.trans_eq (mul_comm _ _), fun m hm => ?_⟩
  refine (ceilDiv_le_iff_le_mul h2).2 ?_
  rw [mul_comm sf.den m]
  exact hm

lemma targetDim_le_dctScaledDim (d n : Nat) (sf : ScaleFactor) (hd : 0 < d)
    (hn : 1 ≤ n) (hsf : sf.valid) (hge : 8 * sf.num ≤ n * sf.den) :
    targetDim d sf ≤ dctScaledDim d n := by
  obtain ⟨h1, h2, h3⟩ := hsf
  have hfloor : d * sf.num / sf.den ≤ d * n / 8 := by
    rw [Nat.le_div_iff_mul_le (by norm_num : (0 : ℕ) < 8)]
    have ha : d * sf.num / sf.den * 8 * sf.den ≤ d * n * sf.den := by
      calc d * sf.num / sf.den * 8 * sf.den
          = d * sf.num / sf.den * sf.den * 8 := by ring
        _ ≤ d * sf.num * 8 :=
            Nat.mul_le_mul_right 8 (Nat.div_mul_le_self _ _)
        _ = d * (8 * sf.num) := by ring
        _ ≤ d * (n * sf.den) := Nat.mul_le_mul_left d hge
        _ = d * n * sf.den := by ring
    exact Nat.le_of_mul_le_mul_right ha h2
  have hprod : 0 < d * n := Nat.mul_pos hd hn
  have hone : 1 ≤ dctScaledDim d n := by
    unfold dctScaledDim ceilDiv
    omega
  have hfl : d * n / 8 ≤ dctScaledDim d n := by
    unfold dctScaledDim ceilDiv
    exact Nat.div_le_div_right (by omega)
  unfold targetDim
  exact max_le hone (le_trans hfloor hfl)

/-- C7: the Geometry Resolver's decode-time scale is the supported codec
scale n/8 that downscales the most while staying ≥ the requested scale: it
is supported, it is ≥ the requested scale, every supported scale ≥ the
request is ≥ it, and consequently the DCT-scaled decoded image is never
smaller on an axis than the resolved target dimension. -/
theorem C7_decode_scale_selection (w h : Nat) (rot : RotationType)
    (sf : ScaleFactor) (crop : Option CropInfo) (plan : TransformPlan)
    (hsf : sf.valid) (hres : resolve w h rot sf crop = .ok plan) :
    plan.decodeScaleNum ∈ supportedScaleNums ∧
      8 * sf.num ≤ plan.decodeScaleNum * sf.den ∧
      (∀ m ∈ supportedScaleNums, 8 * sf.num ≤ m * sf.den →
        plan.decodeScaleNum ≤ m) ∧
      (∀ d, 0 < d → targetDim d sf ≤ dctScaledDim d plan.decodeScaleNum) := by
  obtain ⟨hds, -⟩ := resolve_ok_inv hres
  obtain ⟨c1, c8, cge, cmin⟩ := chooseDecodeScaleNum_spec sf hsf
  rw [hds]
  refine ⟨?_, cge, fun m _ hm => cmin m hm, fun d hd =>
    targetDim_le_dctScaledDim d _ sf hd c1 hsf cge⟩
  simp only [supportedScaleNums, List.mem_cons, List.mem_singleton]
  omega

/-- C7 (witness): for requested scale 3/7 the resolver picks 4/8 — it is
supported, 4/8 ≥ 3/7, 3/8 would be too small, and a 10-wide axis decodes to
5 ≥ the target 4. -/
theorem C7_witness :
    (4 ∈ supportedScaleNums ∧ 8 * 3 ≤ 4 * 7) ∧
      targetDim 10 ⟨3, 7⟩ ≤ dctScaledDim 10 4 := by
  have hmain :=
    C7_decode_scale_selection 10 10 RotationType.none ⟨3, 7⟩ Option.none
      (TransformPlan.mk 4 4 4 4 4 0 ⟨0, 0, 4, 4⟩) (by decide) (by decide)
  exact ⟨⟨hmain.1, hmain.2.1⟩, hmain.2.2.2 10 (by decide)⟩

/-! ### Concrete codec instances used by witnesses -/

/-- A small concrete codec: fixed 8×8 header, fixed decoded image, fixed
encoded byte. -/
def sampleCodec : Codec where
  readHeader := fun _ => some (8, 8)
  decode := fun _ _ => some ⟨8, 8, 1, List.replicate 64 0⟩
  encode := fun _ _ => some [202]

/-- A codec whose decode primitive always fails (a truncated stream: the
header parses but the body cannot be decoded at any scale). -/
def truncatedCodec : Codec where
  readHeader := fun _ => some (4, 4)
  decode := fun _ _ => Option.none
  encode := fun _ _ => some [1]

/-- A coherent codec around a fixed 2×2 image: the header always reads
2×2, decode yields the 2×2 image, encode yields the byte the header read
round-trips on. -/
def identityCodec : Codec where
  readHeader := fun _ => some (2, 2)
  decode := fun _ _ => some ⟨2, 2, 1, [0, 0, 0, 0]⟩
  encode := fun _ _ => some [9]

/-! ### C10: the public entry point has no crop parameter -/

/-- C10: `transformJpeg` (input stream, output stream, rotation, scale,
quality — the header's signature) is the general pipeline invoked with no
crop, and the crop the resolver then resolves is always the full-frame
identity rectangle, so no caller-supplied crop region can reach the output
through this interface. -/
theorem C10_no_crop_interface (c : Codec) (input : List UInt8)
    (rot : RotationType) (sf : ScaleFactor) (q : Int) :
    transformJpeg c input rot sf q =
        transformJpegWithCrop c input rot sf Option.none q ∧
      ∀ w h plan, resolve w h rot sf Option.none = .ok plan →
        plan.cropRect = fullRect plan.outWidth plan.outHeight := by
  refine ⟨rfl, fun w h plan hres => ?_⟩
  obtain ⟨-, -, -, -, -, -, hcr, -⟩ := resolve_ok_inv hres
  simpa using hcr

/-- C10 (witness): at the spec's 1000×600 scenario, the resolved crop is
the full post-transform frame 300×500. -/
theorem C10_witness :
    transformJpeg sampleCodec [0] RotationType.deg90 ⟨1, 2⟩ 80 =
        transformJpegWithCrop sampleCodec [0] RotationType.deg90 ⟨1, 2⟩
          Option.none 80 ∧
      (TransformPlan.mk 4 500 300 300 500 1 ⟨0, 0, 300, 500⟩).cropRect =
        fullRect (TransformPlan.mk 4 500 300 300 500 1
            ⟨0, 0, 300, 500⟩).outWidth
          (TransformPlan.mk 4 500 300 300 500 1 ⟨0, 0, 300, 500⟩).outHeight :=
  ⟨(C10_no_crop_interface sampleCodec [0] RotationType.deg90 ⟨1, 2⟩ 80).1,
    (C10_no_crop_interface sampleCodec [0] RotationType.deg90 ⟨1, 2⟩ 80).2
      1000 600 _ (by decide)⟩

/-! ### C6: buffer invariant checked before encoding -/

/-- C6: on a decoded image whose buffer length differs from
width × height × bytes-per-pixel, the encode-only path fails with
`EncodeError` and never invokes the encode primitive. -/
theorem C6_encode_invariant_check (c : Codec) (img : DecodedImage) (q : Int)
    (hbad : ¬ img.bufferInvariant) :
    (encodeJpegIntoOutputStream c img q).result = .error .EncodeError ∧
      (encodeJpegIntoOutputStream c img q).calls = [] := by
  unfold encodeJpegIntoOutputStream
  rw [if_pos hbad]
  exact ⟨rfl, rfl⟩

/-- C6 (witness): a claimed 2×2 one-byte-per-pixel image with a 1-byte
buffer is rejected with `EncodeError` before the encode primitive runs. -/
theorem C6_witness :
    (encodeJpegIntoOutputStream sampleCodec ⟨2, 2, 1, [0]⟩ 80).result =
        .error .EncodeError ∧
      (encodeJpegIntoOutputStream sampleCodec ⟨2, 2, 1, [0]⟩ 80).calls = [] :=
  C6_encode_invariant_check sampleCodec ⟨2, 2, 1, [0]⟩ 80 (by decide)

/-! ### C5: quality validation and pass-through -/

lemma transform_bad_quality (c : Codec) (input : List UInt8)
    (rot : RotationType) (sf : ScaleFactor) (crop : Option CropInfo)
    (q : Int) (hq : q < 1 ∨ 100 < q) :
    transformJpegWithCrop c input rot sf crop q =
      { result := .error .InvalidGeometry, output := [], calls := [] } := by
  unfold transformJpegWithCrop
  rw [if_pos hq]

lemma encodeOp_bad_quality (c : Codec) (img : DecodedImage) (q : Int)
    (hq : q < 1 ∨ 100 < q) :
    (encodeJpegIntoOutputStream c img q).result = .error .EncodeError ∧
      (encodeJpegIntoOutputStream c img q).calls = [] := by
  unfold encodeJpegIntoOutputStream
  by_cases hb : img.bufferInvariant
  · rw [if_neg (by simpa using hb), if_pos hq]
    exact ⟨rfl, rfl⟩
  · rw [if_pos hb]
    exact ⟨rfl, rfl⟩

lemma transform_encode_quality (c : Codec) (input : List UInt8)
    (rot : RotationType) (sf : ScaleFactor) (crop : Option CropInfo)
    (q : Int) :
    ∀ i qq, PrimCall.encodeCall i qq ∈
      (transformJpegWithCrop c input rot sf crop q).calls → qq = q := by
  intro i qq hmem
  simp only [transformJpegWithCrop] at hmem
  repeat' split at hmem
  all_goals simp_all

lemma encodeOp_encode_quality (c : Codec) (img : DecodedImage) (q : Int) :
    ∀ i qq, PrimCall.encodeCall i qq ∈
      (encodeJpegIntoOutputStream c img q).calls → qq = q := by
  intro i qq hmem
  simp only [encodeJpegIntoOutputStream] at hmem
  split at hmem
  · simp at hmem
  · split at hmem
    · simp at hmem
    · split at hmem
      · simp at hmem
        exact hmem.2
      · simp at hmem
        exact hmem.2

/-- C5: a quality outside [1, 100] is rejected by both public operations
before the encode primitive is ever invoked (no primitive call is made by
the encode-only path, and the streaming transform rejects it as caller
input validation); a quality inside [1, 100] is passed through to the
encode primitive unchanged. -/
theorem C5_quality_validation (c : Codec) (img : DecodedImage)
    (input : List UInt8) (rot : RotationType) (sf : ScaleFactor) (q : Int) :
    ((q < 1 ∨ 100 < q) →
        (encodeJpegIntoOutputStream c img q).result = .error .EncodeError ∧
          (encodeJpegIntoOutputStream c img q).calls = [] ∧
          (transformJpeg c input rot sf q).result = .error .InvalidGeometry ∧
          (transformJpeg c input rot sf q).calls = []) ∧
      (∀ i qq, PrimCall.encodeCall i qq ∈
          (encodeJpegIntoOutputStream c img q).calls → qq = q) ∧
      (∀ i qq, PrimCall.encodeCall i qq ∈
          (transformJpeg c input rot sf q).calls → qq = q) := by
  refine ⟨fun hq => ?_, encodeOp_encode_quality c img q,
    transform_encode_quality c input rot sf Option.none q⟩
  obtain ⟨he1, he2⟩ := encodeOp_bad_quality c img q hq
  have ht := transform_bad_quality c input rot sf Option.none q hq
  exact ⟨he1, he2, by rw [transformJpeg, ht], by rw [transformJpeg, ht]⟩

/-- C5 (witness): quality 0 is rejected by both operations with no codec
primitive invoked at all, and quality 101 likewise by the streaming
transform. -/
theorem C5_witness :
    ((encodeJpegIntoOutputStream sampleCodec ⟨1, 1, 1, [0]⟩ 0).result =
          .error .EncodeError ∧
        (encodeJpegIntoOutputStream sampleCodec ⟨1, 1, 1, [0]⟩ 0).calls =
          [] ∧
        (transformJpeg sampleCodec [0] RotationType.none ⟨1, 1⟩ 0).result =
          .error .InvalidGeometry ∧
        (transformJpeg sampleCodec [0] RotationType.none ⟨1, 1⟩ 0).calls =
          []) ∧
      (transformJpeg sampleCodec [0] RotationType.none ⟨1, 1⟩ 101).result =
        .error .InvalidGeometry :=
  ⟨(C5_quality_validation sampleCodec ⟨1, 1, 1, [0]⟩ [0] RotationType.none
        ⟨1, 1⟩ 0).1 (by decide),
    ((C5_quality_validation sampleCodec ⟨1, 1, 1, [0]⟩ [0] RotationType.none
        ⟨1, 1⟩ 101).1 (by decide)).2.2.1⟩

/-! ### C3: decode failure writes no output -/

/-- C3: on an input stream the codec cannot decode (at any scale — e.g. a
truncated JPEG whose header still parses), the streaming transform fails
with `DecodeError` and writes no bytes to the output stream.  The quality
is assumed in range; an out-of-range quality is rejected up front before
the stream is touched (see the C5 theorem). -/
theorem C3_decode_failure_no_output (c : Codec) (input : List UInt8)
    (rot : RotationType) (sf : ScaleFactor) (q : Int)
    (hq1 : 1 ≤ q) (hq2 : q ≤ 100)
    (hdec : ∀ n, c.decode input n = Option.none) :
    (transformJpeg c input rot sf q).result = .error .DecodeError ∧
      (transformJpeg c input rot sf q).output = [] := by
  have hq : ¬ (q < 1 ∨ 100 < q) := by omega
  simp only [transformJpeg, transformJpegWithCrop, if_neg hq]
  cases hhd : c.readHeader input with
  | none => exact ⟨rfl, rfl⟩
  | some wh =>
      obtain ⟨w, h⟩ := wh
      simp only [resolve_none_eq, hdec]
      constructor <;> trivial

/-- C3 (witness): the truncated-stream codec — valid 4×4 header, decode
fails at every scale — yields `DecodeError` and an empty output stream. -/
theorem C3_witness :
    (transformJpeg truncatedCodec [255, 216] RotationType.none ⟨1, 1⟩
          80).result = .error .DecodeError ∧
      (transformJpeg truncatedCodec [255, 216] RotationType.none ⟨1, 1⟩
          80).output = [] :=
  C3_decode_failure_no_output truncatedCodec [255, 216] RotationType.none
    ⟨1, 1⟩ 80 (by decide) (by decide) (fun _ => rfl)

/-! ### C4: identity transform preserves dimensions -/

lemma targetDim_identity (d : Nat) (hd : 0 < d) : targetDim d ⟨1, 1⟩ = d := by
  unfold targetDim
  simp
  omega

/-- With rotation none and scale 1/1 the resolver requests full-scale
decode (8/8), keeps both dimensions, and resolves the identity crop. -/
lemma resolve_identity (w h : Nat) (hw : 0 < w) (hh : 0 < h) :
    resolve w h RotationType.none ⟨1, 1⟩ Option.none =
      .ok (TransformPlan.mk 8 w h w h 0 (fullRect w h)) := by
  rw [resolve_none_eq]
  simp [RotationType.swapsDimensions, RotationType.steps,
    targetDim_identity w hw, targetDim_identity h hh]
  rfl

/-- C4: with rotation none and scale factor 1/1, on a decodable stream the
transform succeeds and produces output whose decoded dimensions (as the
codec's header read reports them) equal the input's natural dimensions.
The codec hypotheses state the §6 collaborator contract on this input:
the header reports w×h, identity-scale decode yields a well-formed w×h
image, and encoding that image yields bytes whose header reads back its
dimensions (§8 round-trip). -/
theorem C4_identity_transform (c : Codec) (input : List UInt8) (q : Int)
    (w h : Nat) (img : DecodedImage) (out : List UInt8)
    (hq1 : 1 ≤ q) (hq2 : q ≤ 100) (hw : 0 < w) (hh : 0 < h)
    (hhead : c.readHeader input = some (w, h))
    (hdec : c.decode input 8 = some img)
    (hiw : img.width = w) (hih : img.height = h)
    (hinv : img.bufferInvariant)
    (henc : c.encode img q = some out)
    (hrt : c.readHeader out = some (img.width, img.height)) :
    (transformJpeg c input RotationType.none ⟨1, 1⟩ q).result = .ok () ∧
      (transformJpeg c input RotationType.none ⟨1, 1⟩ q).output = out ∧
      c.readHeader (transformJpeg c input RotationType.none ⟨1, 1⟩ q).output
        = some (w, h) := by
  have hq : ¬ (q < 1 ∨ 100 < q) := by omega
  simp [transformJpeg, transformJpegWithCrop, if_neg hq, hhead,
    resolve_identity w h hw hh, hdec, hiw, hih, rotateApply, hinv, henc, hrt]

/-- C4 (witness): a concrete coherent codec run — 2×2 input, identity
transform, output decodes back to 2×2. -/
theorem C4_witness :
    (transformJpeg identityCodec [5] RotationType.none ⟨1, 1⟩ 80).result =
        .ok () ∧
      (transformJpeg identityCodec [5] RotationType.none ⟨1, 1⟩ 80).output =
        [9] ∧
      identityCodec.readHeader
          (transformJpeg identityCodec [5] RotationType.none ⟨1, 1⟩
              80).output = some (2, 2) :=
  C4_identity_transform identityCodec [5] 80 2 2 ⟨2, 2, 1, [0, 0, 0, 0]⟩ [9]
    (by decide) (by decide) (by decide) (by decide) rfl rfl rfl rfl
    (by decide) rfl rfl

/-! ### C9: fixed composition order scale → rotate → crop -/

/-- A codec whose decoded image (9×5) misses the resolved scaled
dimensions, forcing the residual in-memory resize step. -/
def residCodec : Codec where
  readHeader := fun _ => some (16, 8)
  decode := fun _ _ => some ⟨9, 5, 1, List.replicate 45 0⟩
  encode := fun _ _ => some [3]

/-- C9: on a run in which both the residual resize and a non-identity crop
fire, the image handed to the encode primitive is exactly
crop ∘ rotate ∘ resize of the decoded image — scaling before rotation,
rotation before crop; and the resolver's crop rectangle was validated
against the post-rotation dimensions (the scaled dimensions swapped for
90°/270°). -/
theorem C9_composition_order (c : Codec) (input : List UInt8)
    (rot : RotationType) (sf : ScaleFactor) (crop : Option CropInfo)
    (q : Int) (w h : Nat) (plan : TransformPlan) (img : DecodedImage)
    (hq1 : 1 ≤ q) (hq2 : q ≤ 100)
    (hhead : c.readHeader input = some (w, h))
    (hres : resolve w h rot sf crop = .ok plan)
    (hdec : c.decode input plan.decodeScaleNum = some img)
    (hresid : ¬ (img.width = plan.scaledWidth ∧
      img.height = plan.scaledHeight))
    (hcrop : plan.cropRect ≠ fullRect plan.outWidth plan.outHeight) :
    (∀ i qq, PrimCall.encodeCall i qq ∈
        (transformJpegWithCrop c input rot sf crop q).calls →
      i = cropApply plan.cropRect (rotateApply plan.rotateSteps
        (resizeApply plan.scaledWidth plan.scaledHeight img))) ∧
      plan.outWidth =
        (if rot.swapsDimensions then plan.scaledHeight
         else plan.scaledWidth) ∧
      plan.outHeight =
        (if rot.swapsDimensions then plan.scaledWidth
         else plan.scaledHeight) ∧
      cropFits plan.cropRect plan.outWidth plan.outHeight := by
  obtain ⟨-, hsw, hsh, how, hoh, -, -, hfits⟩ := resolve_ok_inv hres
  have hq : ¬ (q < 1 ∨ 100 < q) := by omega
  refine ⟨fun i qq hmem => ?_, ?_, ?_, hfits⟩
  · simp only [transformJpegWithCrop, if_neg hq, hhead, hres, hdec,
      if_neg hresid, if_neg hcrop] at hmem
    split at hmem
    · split at hmem <;> (simp at hmem; exact hmem.1)
    · simp at hmem
  · rw [how, hsw, hsh]
  · rw [hoh, hsw, hsh]

/-- C9 (witness): a 16×8 natural image at scale 1/2 and rotation 90° with
crop (0,0,4,4), decoded as 9×5 — the encode primitive receives exactly the
crop of the rotation of the resize of the decoded image, and the crop fits
the post-rotation 4×8 bounds. -/
theorem C9_witness :
    DecodedImage.mk 4 4 1 (List.replicate 16 0) =
        cropApply (CropInfo.mk 0 0 4 4) (rotateApply 1 (resizeApply 8 4
          (DecodedImage.mk 9 5 1 (List.replicate 45 0)))) ∧
      cropFits (CropInfo.mk 0 0 4 4) 4 8 :=
  have h := C9_composition_order residCodec [0] RotationType.deg90 ⟨1, 2⟩
    (some ⟨0, 0, 4, 4⟩) 80 16 8 (TransformPlan.mk 4 8 4 4 8 1 ⟨0, 0, 4, 4⟩)
    (DecodedImage.mk 9 5 1 (List.replicate 45 0))
    (by decide) (by decide) rfl (by decide) rfl (by decide) (by decide)
  ⟨h.1 (DecodedImage.mk 4 4 1 (List.replicate 16 0)) 80 (by decide),
    h.2.2.2⟩

end ImagePipeline
